import Mathlib

/-
  Verification development for the AI-Travel-Planner conversational
  trip-planning backend.

  The Python sources are embedded shallowly:
  * strings are Lean `String`s, processed as `List Char`;
  * Python `None` becomes `Option.none`; fallible code returns `Except`;
  * regular expressions used by the sources are implemented as explicit
    backtracking matchers with Python `re` semantics (leftmost match,
    alternation in source order, greedy quantifiers);
  * calendar arithmetic uses day numbers (days since 1970-01-01) computed
    with the standard civil-calendar conversion;
  * external collaborators (OpenAI calls, the dateutil library, Redis,
    provider services) are parameters of the embedded functions, so every
    theorem quantifies over their possible outcomes.
-/

deriving instance DecidableEq for Except

namespace TravelPlanner

/-! ## Python string primitives -/

/-- Whitespace characters recognised by Python `str.split` / `str.strip`
(ASCII subset: space, tab, newline, vertical tab, form feed, carriage return). -/
def pySpaceChars : List Char := [' ', Char.ofNat 9, Char.ofNat 10, Char.ofNat 11, Char.ofNat 12, Char.ofNat 13]

def isPySpace (c : Char) : Bool := pySpaceChars.contains c

/-- ASCII case folding, the fragment of Python `str.lower` exercised here. -/
def pyLowerChar (c : Char) : Char :=
  if 'A' ≤ c && c ≤ 'Z' then Char.ofNat (c.toNat + 32) else c

def pyUpperChar (c : Char) : Char :=
  if 'a' ≤ c && c ≤ 'z' then Char.ofNat (c.toNat - 32) else c

def pyLower (s : String) : String := String.mk (s.data.map pyLowerChar)

/-- Python `str.strip()`: drop leading and trailing whitespace. -/
def pyStripList (s : List Char) : List Char :=
  ((s.dropWhile isPySpace).reverse.dropWhile isPySpace).reverse

def pyStrip (s : String) : String := String.mk (pyStripList s.data)

/-- Accumulating worker for `pySplit`. -/
def pySplitAux : List Char → List Char → List String
  | [], acc => if acc.isEmpty then [] else [String.mk acc.reverse]
  | c :: cs, acc =>
    if isPySpace c then
      if acc.isEmpty then pySplitAux cs []
      else String.mk acc.reverse :: pySplitAux cs []
    else pySplitAux cs (c :: acc)

/-- Python `str.split()` with no argument: split on whitespace runs, no empties. -/
def pySplit (s : String) : List String := pySplitAux s.data []

/-- Does the first list occur as a prefix of the second? -/
def startsWithSeq : List Char → List Char → Bool
  | [], _ => true
  | _ :: _, [] => false
  | a :: as, b :: bs => a == b && startsWithSeq as bs

/-- Does `sub` occur as a contiguous subsequence? Python `sub in s`. -/
def containsSeq (sub : List Char) : List Char → Bool
  | [] => sub.isEmpty
  | c :: cs => startsWithSeq sub (c :: cs) || containsSeq sub cs

def containsStr (sub s : String) : Bool := containsSeq sub.data s.data

/-- Python `str.title()` restricted to ASCII letters: the first letter of each
alphabetic run is uppercased, the rest lowercased. -/
def pyTitleAux : Bool → List Char → List Char
  | _, [] => []
  | prevAlpha, c :: cs =>
    let alpha := ('a' ≤ c && c ≤ 'z') || ('A' ≤ c && c ≤ 'Z')
    let c2 := if alpha then (if prevAlpha then pyLowerChar c else pyUpperChar c) else c
    c2 :: pyTitleAux alpha cs

def pyTitle (s : String) : String := String.mk (pyTitleAux false s.data)

/-! ## Lexicographic string order (Python `<=` on `str`) -/

def listLe : List Char → List Char → Bool
  | [], _ => true
  | _ :: _, [] => false
  | a :: as, b :: bs =>
    if a.toNat < b.toNat then true
    else if b.toNat < a.toNat then false
    else listLe as bs

def strLe (a b : String) : Bool := listLe a.data b.data

/-! ## Calendar arithmetic (day numbers relative to 1970-01-01) -/

def isLeap (y : Int) : Bool := y % 4 == 0 && (y % 100 != 0 || y % 400 == 0)

def daysInMonth (y m : Int) : Int :=
  if m == 2 then (if isLeap y then 29 else 28)
  else if m == 4 || m == 6 || m == 9 || m == 11 then 30
  else 31

/-- Civil date to day number (standard civil-from-days algorithm). -/
def daysFromCivil (y m d : Int) : Int :=
  let yy := if m ≤ 2 then y - 1 else y
  let era := (if 0 ≤ yy then yy else yy - 399) / 400
  let yoe := yy - era * 400
  let mp := (m + 9) % 12
  let doy := (153 * mp + 2) / 5 + d - 1
  let doe := yoe * 365 + yoe / 4 - yoe / 100 + doy
  era * 146097 + doe - 719468

/-- Day number back to a civil date `(year, month, day)`. -/
def civilFromDays (z0 : Int) : Int × Int × Int :=
  let z := z0 + 719468
  let era := (if 0 ≤ z then z else z - 146096) / 146097
  let doe := z - era * 146097
  let yoe := (doe - doe / 1460 + doe / 36524 - doe / 146096) / 365
  let y := yoe + era * 400
  let doy := doe - (365 * yoe + yoe / 4 - yoe / 100)
  let mp := (5 * doy + 2) / 153
  let d := doy - (153 * mp + 2) / 5 + 1
  let m := mp + (if mp < 10 then 3 else -9)
  (if m ≤ 2 then y + 1 else y, m, d)

def pad2 (n : Int) : String := if n < 10 then "0" ++ toString n else toString n

def pad4 (n : Int) : String :=
  if n < 10 then "000" ++ toString n
  else if n < 100 then "00" ++ toString n
  else if n < 1000 then "0" ++ toString n
  else toString n

/-- `strftime("%Y-%m-%d")` for in-range dates. -/
def formatCivil (y m d : Int) : String := pad4 y ++ "-" ++ pad2 m ++ "-" ++ pad2 d

def formatDays (z : Int) : String :=
  match civilFromDays z with
  | (y, m, d) => formatCivil y m d

def isDig (c : Char) : Bool := '0' ≤ c && c ≤ '9'

def digitVal (c : Char) : Int := Int.ofNat c.toNat - 48

/-- The month component of CPython `strptime` (`1[0-2]|0[1-9]|[1-9]`),
returning the value and the unconsumed characters. -/
def parseMonthDigits : List Char → Option (Int × List Char)
  | a :: b :: r =>
    if a == '1' && (b == '0' || b == '1' || b == '2') then some (10 + digitVal b, r)
    else if a == '0' && isDig b && b != '0' then some (digitVal b, r)
    else if isDig a && a != '0' then some (digitVal a, b :: r)
    else none
  | [a] => if isDig a && a != '0' then some (digitVal a, []) else none
  | [] => none

/-- The day component of CPython `strptime` (`3[01]|[12]\d|0[1-9]|[1-9]`). -/
def parseDayDigits : List Char → Option (Int × List Char)
  | a :: b :: r =>
    if a == '3' && (b == '0' || b == '1') then some (30 + digitVal b, r)
    else if (a == '1' || a == '2') && isDig b then some (10 * digitVal a + digitVal b, r)
    else if a == '0' && isDig b && b != '0' then some (digitVal b, r)
    else if isDig a && a != '0' then some (digitVal a, b :: r)
    else none
  | [a] => if isDig a && a != '0' then some (digitVal a, []) else none
  | [] => none

/-- Python `datetime.strptime(s, "%Y-%m-%d")`: four year digits, month and day
as accepted by strptime, followed by datetime range validation; `none` models
the `ValueError` swallowed by the callers. -/
def strptimeIso (s : String) : Option (Int × Int × Int) :=
  match s.data with
  | y1 :: y2 :: y3 :: y4 :: rest =>
    if isDig y1 && isDig y2 && isDig y3 && isDig y4 then
      let y := 1000 * digitVal y1 + 100 * digitVal y2 + 10 * digitVal y3 + digitVal y4
      match rest with
      | h1 :: rest2 =>
        if h1 == '-' then
          match parseMonthDigits rest2 with
          | some (m, rest3) =>
            match rest3 with
            | h2 :: rest4 =>
              if h2 == '-' then
                match parseDayDigits rest4 with
                | some (d, []) => if 1 ≤ y && d ≤ daysInMonth y m then some (y, m, d) else none
                | _ => none
              else none
            | [] => none
          | none => none
        else none
      | [] => none
    else none
  | _ => none

/-! ## Stable sorting of strings (Python `list.sort()` on `str`) -/

/-- Insert `x` before the first element it is `strLe`-below (stable insertion,
matching the order Python `list.sort` produces on strings). -/
def insertSorted (x : String) : List String → List String
  | [] => [x]
  | y :: ys => if strLe x y then x :: y :: ys else y :: insertSorted x ys

def sortStrings : List String → List String
  | [] => []
  | x :: xs => insertSorted x (sortStrings xs)

/-- Adjacent elements of the list are in `strLe` order. -/
def chainLe : List String → Bool
  | [] => true
  | [_] => true
  | a :: b :: r => strLe a b && chainLe (b :: r)

/-! ## Backtracking regular-expression matchers

A matcher maps the input to the list of `(consumed, rest)` alternatives in
the order a backtracking engine (Python `re`) explores them; the head of the
composed list is the match the engine reports. -/

/-- Matcher result: alternatives `(consumed, rest)` in exploration order. -/
abbrev Matcher := List Char → List (Nat × List Char)

/-- Match a literal. -/
def mLit (lit : String) : Matcher := fun s =>
  if startsWithSeq lit.data s then [(lit.length, s.drop lit.length)] else []

/-- Ordered alternation. -/
def mAlt (ms : List Matcher) : Matcher := fun s => (ms.map (fun m => m s)).join

/-- Sequencing; the earlier matcher backtracks last, as in `re`. -/
def mSeq (m1 m2 : Matcher) : Matcher := fun s =>
  (m1 s).bind (fun p1 => (m2 p1.2).map (fun p2 => (p1.1 + p2.1, p2.2)))

/-- Greedy optional group `(...)?`. -/
def mOpt (m : Matcher) : Matcher := fun s => m s ++ [(0, s)]

/-- Empty matcher (consumes nothing). -/
def mEps : Matcher := fun s => [(0, s)]

/-- Greedy bounded character-class repetition `p{lo,hi}` with backtracking
alternatives from the longest feasible run down to `lo`. -/
def mRunBetween (p : Char → Bool) (lo hi : Nat) : Matcher := fun s =>
  let k := min hi (s.takeWhile p).length
  if k < lo then []
  else (List.range (k - lo + 1)).map (fun i => (k - i, s.drop (k - i)))

/-- Greedy `p+`. -/
def mRunPlus (p : Char → Bool) : Matcher := fun s => mRunBetween p 1 s.length s

/-- Greedy `p*`. -/
def mRunStar (p : Char → Bool) : Matcher := fun s =>
  let k := (s.takeWhile p).length
  (List.range (k + 1)).map (fun i => (k - i, s.drop (k - i)))

/-- Anchored match of `pre`, then a capture group `grp`, then `post`;
returns `(total consumed, captured characters)` of the first full match. -/
def anchoredCapture (pre grp post : Matcher) (s : List Char) : Option (Nat × List Char) :=
  (((pre s).bind fun p1 =>
      (grp p1.2).bind fun p2 =>
        (post p2.2).map fun p3 => (p1.1 + p2.1 + p3.1, p1.2.take p2.1)).head?)

/-- Fuelled scanner implementing `re.findall` for a single-group pattern:
try an anchored match at each position, emit the group, resume after the
match (at least one character further). -/
def findAllAux (pre grp post : Matcher) : Nat → List Char → List String
  | 0, _ => []
  | _ + 1, [] => []
  | fuel + 1, s@(_ :: cs) =>
    match anchoredCapture pre grp post s with
    | some (n, cap) => String.mk cap :: findAllAux pre grp post fuel (s.drop (max n 1))
    | none => findAllAux pre grp post fuel cs

def findAllCapture (pre grp post : Matcher) (s : List Char) : List String :=
  findAllAux pre grp post s.length s

/-- Fuelled scanner implementing `re.search` for a single-group pattern. -/
def searchAux (pre grp post : Matcher) : Nat → List Char → Option (List Char)
  | 0, _ => none
  | _ + 1, [] => none
  | fuel + 1, s@(_ :: cs) =>
    match anchoredCapture pre grp post s with
    | some (_, cap) => some cap
    | none => searchAux pre grp post fuel cs

def searchCapture (pre grp post : Matcher) (s : List Char) : Option (List Char) :=
  searchAux pre grp post s.length s

/-! ## The date logic of `RegexEntityExtractor._extract_trip_details`
(`src/services/extraction/regex_extractor.py`, lines 73-117) -/

def isLowerAZ (c : Char) : Bool := 'a' ≤ c && c ≤ 'z'

/-- Month-name trigrams, in the source alternation order. -/
def monthLits : List Matcher :=
  [mLit "jan", mLit "feb", mLit "mar", mLit "apr", mLit "may", mLit "jun",
   mLit "jul", mLit "aug", mLit "sep", mLit "oct", mLit "nov", mLit "dec"]

/-- The captured group shared by the two month-name date patterns:
`((?:\d{1,2}(?:st|nd|rd|th)?\s+)?(?:jan|...|dec)[a-z]*(?:\s+\d{2,4})?)`. -/
def monthDateGroup : Matcher :=
  mSeq (mOpt (mSeq (mRunBetween isDig 1 2)
                   (mSeq (mOpt (mAlt [mLit "st", mLit "nd", mLit "rd", mLit "th"]))
                         (mRunPlus isPySpace))))
       (mSeq (mAlt monthLits)
             (mSeq (mRunStar isLowerAZ)
                   (mOpt (mSeq (mRunPlus isPySpace) (mRunBetween isDig 2 4)))))

/-- Prefix of date pattern 1: `(?:from|on|starting)\s+`. -/
def datePrefix1 : Matcher :=
  mSeq (mAlt [mLit "from", mLit "on", mLit "starting"]) (mRunPlus isPySpace)

/-- Prefix of date pattern 2: `(?:until|to|ending|through)\s+`. -/
def datePrefix2 : Matcher :=
  mSeq (mAlt [mLit "until", mLit "to", mLit "ending", mLit "through"]) (mRunPlus isPySpace)

/-- Date pattern 3: `(\d{4}-\d{2}-\d{2})`. -/
def isoGroup : Matcher :=
  mSeq (mRunBetween isDig 4 4)
       (mSeq (mLit "-")
             (mSeq (mRunBetween isDig 2 2)
                   (mSeq (mLit "-") (mRunBetween isDig 2 2))))

/-- All date-pattern candidates of the message, in source pattern order. -/
def dateCandidates (msg : List Char) : List String :=
  findAllCapture datePrefix1 monthDateGroup mEps msg ++
  findAllCapture datePrefix2 monthDateGroup mEps msg ++
  findAllCapture mEps isoGroup mEps msg

/-- `re.match(r"^\d{4}-\d{2}-\d{2}$", text)` as used by `parse_date`. -/
def isFullIso (s : String) : Bool :=
  match s.data with
  | [a, b, c, d, h1, e, f, h2, g, i] =>
    isDig a && isDig b && isDig c && isDig d && h1 == '-' &&
    isDig e && isDig f && h2 == '-' && isDig g && isDig i
  | _ => false

/-- `utils.date_utils.parse_date`: the ISO fast path is in-repo; every other
input goes through the third-party `dateutil` parser plus the year-adjustment
code, modelled by the boundary parameter `dp` (which also absorbs the
exception-to-`None` handler). -/
def parse_date (dp : String → Option String) (text : String) : Option String :=
  if isFullIso text then some text else dp text

/-- Source lines 94-99: sort the parsed dates chronologically and assign the
first to `start_date`, the second (if any) to `end_date`. -/
def assignDates (parsed : List String) : Option String × Option String :=
  match sortStrings parsed with
  | [] => (none, none)
  | [a] => (some a, none)
  | a :: b :: _ => (some a, some b)

/-- `re.search(r"(?:for|planning)\s+(\d+)\s+(?:days|nights)", message)`,
returning the captured count. -/
def duration_search (msg : List Char) : Option Nat :=
  (searchCapture (mSeq (mAlt [mLit "for", mLit "planning"]) (mRunPlus isPySpace))
                 (mRunPlus isDig)
                 (mSeq (mRunPlus isPySpace) (mAlt [mLit "days", mLit "nights"]))
                 msg).map
    (fun cap => cap.foldl (fun a c => 10 * a + (c.toNat - 48)) 0)

/-- Python exceptions that the embedding tracks explicitly. -/
inductive PyError
  | attributeError
  | valueError
deriving DecidableEq

/-- Start/end dates produced by the regex extractor. -/
structure DatePair where
  start_date : Option String := none
  end_date : Option String := none
deriving DecidableEq

/-- Source lines 101-117: if `end_date` is still missing, resolve a
`for N days/nights` phrase; with a start date the end becomes start plus N
days, otherwise both dates are suggested from two weeks ahead of `now`. -/
def duration_step (now : Int) (msg : List Char) (s0 e0 : Option String) :
    Except PyError DatePair :=
  if e0.isNone then
    match duration_search msg with
    | none => .ok ⟨s0, e0⟩
    | some n =>
      match s0 with
      | some sd =>
        match strptimeIso sd with
        | none => .error .valueError
        | some (y, m, d) => .ok ⟨some sd, some (formatDays (daysFromCivil y m d + Int.ofNat n))⟩
      | none =>
        .ok ⟨some (formatDays (now + 14)), some (formatDays (now + 14 + Int.ofNat n))⟩
  else .ok ⟨s0, e0⟩

/-- The date portion of `_extract_trip_details`: lowercase the message,
gather date candidates, parse them, sort-and-assign, then apply the duration
step. `dp` is the `dateutil` boundary of `parse_date`; `now` is the current
day number. -/
def extract_dates (dp : String → Option String) (now : Int) (message : String) :
    Except PyError DatePair :=
  let msg := (pyLower message).data
  let parsed := (dateCandidates msg).filterMap (parse_date dp)
  let (s0, e0) := assignDates parsed
  duration_step now msg s0 e0

/-! ## `models/trip_details.py` -/

/-- Python truthiness of an optional string (`None` and `""` are falsy). -/
def truthyS : Option String → Bool
  | none => false
  | some s => !s.isEmpty

/-- Python truthiness of an optional integer (`None` and `0` are falsy). -/
def truthyI : Option Int → Bool
  | none => false
  | some n => n != 0

/-- The `TripDetails` dataclass. `confidence_levels` is a (never-`None`)
dictionary, modelled as an association list. -/
structure TripDetails where
  origin : Option String := none
  destination : Option String := none
  start_date : Option String := none
  end_date : Option String := none
  travelers : Option Int := none
  budget : Option Int := none
  preferences : Option String := none
  confidence_levels : List (String × String) := []
deriving DecidableEq

/-- A dictionary argument of `TripDetails.update`, restricted to the keys the
dataclass has (`hasattr` filters out all others). `none` in a field means the
key is absent or its value is `None` — `update` treats both identically. -/
structure TripUpdate where
  origin : Option String := none
  destination : Option String := none
  start_date : Option String := none
  end_date : Option String := none
  travelers : Option Int := none
  budget : Option Int := none
  preferences : Option String := none
  confidence_levels : Option (List (String × String)) := none
deriving DecidableEq

/-- `TripDetails.update`: overwrite a field only when the dictionary holds a
non-`None` value for it. -/
def TripDetails.update (t : TripDetails) (u : TripUpdate) : TripDetails where
  origin := match u.origin with | some v => some v | none => t.origin
  destination := match u.destination with | some v => some v | none => t.destination
  start_date := match u.start_date with | some v => some v | none => t.start_date
  end_date := match u.end_date with | some v => some v | none => t.end_date
  travelers := match u.travelers with | some v => some v | none => t.travelers
  budget := match u.budget with | some v => some v | none => t.budget
  preferences := match u.preferences with | some v => some v | none => t.preferences
  confidence_levels := u.confidence_levels.getD t.confidence_levels

/-- `TripDetails.to_dict` viewed as an `update` argument: `None`-valued keys
are omitted, and `confidence_levels` (an always-present dictionary, empty or
not) is always included. -/
def TripDetails.to_update (t : TripDetails) : TripUpdate where
  origin := t.origin
  destination := t.destination
  start_date := t.start_date
  end_date := t.end_date
  travelers := t.travelers
  budget := t.budget
  preferences := t.preferences
  confidence_levels := some t.confidence_levels

/-- `missing_required_fields`, in source order and with Python truthiness. -/
def TripDetails.missing_required_fields (t : TripDetails) : List String :=
  (if truthyS t.destination then [] else ["destination"]) ++
  (if truthyS t.origin then [] else ["origin"]) ++
  (if truthyS t.start_date then [] else ["start date"]) ++
  (if truthyS t.end_date then [] else ["end date"]) ++
  (if truthyI t.travelers then [] else ["number of travelers"])

def TripDetails.missing_optional_fields (t : TripDetails) : List String :=
  (if truthyI t.budget then [] else ["budget"]) ++
  (if truthyS t.preferences then [] else ["activity preferences"])

def TripDetails.is_ready_for_confirmation (t : TripDetails) : Bool :=
  t.missing_required_fields.length == 0

/-- The attribute names the `TripDetails` dataclass defines (fields plus
methods); Python raises `AttributeError` on any lookup outside this list. -/
def tripDetailsMembers : List String :=
  ["origin", "destination", "start_date", "end_date", "travelers", "budget",
   "preferences", "confidence_levels", "needs_date_confirmation", "to_dict",
   "from_dict", "update", "missing_required_fields", "missing_optional_fields",
   "is_ready_for_confirmation", "is_complete"]

/-! ## `utils/date_utils.py` -/

/-- `validate_future_date`: parse the string with `strptime("%Y-%m-%d")`,
reject dates before `today` or more than 180 days ahead, otherwise return the
re-formatted date. Every rejection (and every parse failure) returns `None`. -/
def validate_future_date (today : Int) (date_str : String) : Option String :=
  match strptimeIso date_str with
  | none => none
  | some (y, m, d) =>
    let dn := daysFromCivil y m d
    if dn < today then none
    else if dn > today + 180 then none
    else some (formatCivil y m d)

/-! ## `LLMEntityExtractor._clean_extracted_data`
(`src/services/extraction/llm_extractor.py`, lines 195-290) -/

/-- Raw field values decoded from the LLM JSON answer (the LLM itself is an
external collaborator; the cleaning below is in-repo code). -/
structure RawExtract where
  destination : Option String := none
  start_date : Option String := none
  end_date : Option String := none
  travelers : Option Int := none
  budget : Option Int := none
  preferences : Option String := none

/-- The vague date references the cleaner special-cases. -/
inductive DateRef
  | next_week
  | next_month
  | this_weekend
deriving DecidableEq

/-- `datetime.weekday()` of a day number (Monday = 0; day 0 = 1970-01-01 was
a Thursday). -/
def weekdayOf (z : Int) : Int := (z + 3) % 7

/-- Vague-reference date range computed by `_clean_extracted_data`. -/
def dateRefRange (now : Int) (r : DateRef) : String × String :=
  match r with
  | .next_week =>
    let start := now + (7 - weekdayOf now)
    (formatDays start, formatDays (start + 6))
  | .next_month =>
    let (y, m, _) := civilFromDays now
    let (ny, nm) := if m < 12 then (y, m + 1) else (y + 1, 1)
    let firstNext := daysFromCivil ny nm 1
    let (ny2, nm2) := if nm < 12 then (ny, nm + 1) else (ny + 1, 1)
    (formatDays firstNext, formatDays (daysFromCivil ny2 nm2 1 - 1))
  | .this_weekend =>
    let saturday := now + (5 - weekdayOf now) % 7
    (formatDays saturday, formatDays (saturday + 1))

/-- `_clean_extracted_data`: destination is title-cased, dates go through
`validate_future_date`, a vague date reference overrides both dates and tags
them as inferred, and `confidence_levels` is always present in the result
(the empty dictionary when no vague reference was seen). -/
def clean_extracted_data (now : Int) (data : RawExtract) (date_reference : Option DateRef) :
    TripDetails :=
  let sd0 := match data.start_date with
    | some s => if s.isEmpty then none else validate_future_date now s
    | none => none
  let ed0 := match data.end_date with
    | some s => if s.isEmpty then none else validate_future_date now s
    | none => none
  let (sd, ed, conf) := match date_reference with
    | some r =>
      let (a, b) := dateRefRange now r
      (some a, some b, [("start_date", "inferred"), ("end_date", "inferred")])
    | none => (sd0, ed0, ([] : List (String × String)))
  { destination := data.destination.bind (fun s => if s.isEmpty then none else some (pyTitle (pyStrip s)))
    start_date := sd
    end_date := ed
    travelers := data.travelers.bind (fun n => if n == 0 then none else some n)
    budget := data.budget.bind (fun n => if n == 0 then none else some n)
    preferences := data.preferences.bind (fun s => if s.isEmpty then none else some (pyStrip s))
    confidence_levels := conf }

/-! ## `ChatManager._check_confirmation`
(`src/managers/chat_manager.py`, lines 205-242) -/

/-- The ASCII apostrophe. -/
def apos : Char := Char.ofNat 39

/-- Helper building string literals that contain an apostrophe. -/
def sQ (pre post : String) : String := pre ++ String.mk [apos] ++ post

def word_dont : String := sQ "don" "t"

def word_cant : String := sQ "can" "t"

def confirmation_keywords : List String :=
  ["yes", "yeah", "yep", "sure", "ok", "okay", "proceed",
   "confirm", "book", "go ahead", "sounds good", "please"]

/-- The exact messages short-circuited to `True` ("special case for common
phrases"). -/
def special_confirmations : List String :=
  ["yes", "yes please", "yes, please", "sure", "ok", "okay", "proceed", "go ahead"]

/-- The negation prefixes of the negation-before-confirmation check. -/
def pre_negations : List String := [word_dont, "do not", "cannot", word_cant, "not"]

/-- The negation words of the final word-level check. -/
def negation_words : List String := ["no", "nope", word_dont, "not", "cancel"]

/-- `_check_confirmation` itself. -/
def check_confirmation (message : String) : Bool :=
  let ml := pyStrip (pyLower message)
  if special_confirmations.contains ml then true
  else if pre_negations.any (fun neg =>
      confirmation_keywords.any (fun conf => containsStr (neg ++ " " ++ conf) ml)) then false
  else
    let ws := pySplit ml
    let has_conf := confirmation_keywords.any (fun k => ws.contains k)
    let has_neg := negation_words.any (fun w => ws.contains w)
    has_conf && !has_neg

/-! ## Session state (`repositories/session_repository.py`) and the
`ChatManager.process_message` turn (`src/managers/chat_manager.py`) -/

/-- The per-session Redis keys the turn logic touches: the trip-details blob
(`none` when the key is absent), the confirmed flag, and the stored
itinerary. -/
structure SessionState where
  trip_details : Option TripDetails := none
  confirmed : Bool := false
  itinerary : Option String := none
deriving DecidableEq

/-- `get_trip_details`: the stored blob, or a default `TripDetails`. -/
def SessionState.get_trip_details (s : SessionState) : TripDetails :=
  s.trip_details.getD {}

def SessionState.has_itinerary (s : SessionState) : Bool := s.itinerary.isSome

/-- `update_trip_details`: merge the dictionary into the stored details and
persist the result. -/
def SessionState.update_trip_details (s : SessionState) (u : TripUpdate) : SessionState :=
  { s with trip_details := some (s.get_trip_details.update u) }

/-- Outcome of `CustomizerAgent.customize_trip` (an external collaborator of
`handle_hotel_customization`). -/
structure CustomizerResult where
  success : Bool
  message : String
  selected_hotel : Option String := none
  trip_update : Option TripUpdate := none
  needs_new_itinerary : Bool := false
deriving DecidableEq

/-- Per-turn outcomes of the external collaborators consulted by
`process_message`: the entity extractor result, the travel supervisor
(`plan_trip`), the collection-phase chat completion, the follow-up chat
completion, and the hotel customizer. An `Except.error` is a raised
exception caught by the corresponding `try`. -/
structure TurnExt where
  extracted : TripDetails
  supervisor : Except String String
  chat : Except String String
  followup : Except String String
  customizer : Except String CustomizerResult
deriving DecidableEq

/-- Which code path produced the turn response. -/
inductive Route
  | itineraryGate
  | hotelCustomization
  | dateError
  | followup
  | planning
  | collecting
deriving DecidableEq

structure TurnResult where
  route : Route
  state : SessionState
  response : String
deriving DecidableEq

def selectHotelResponse : String :=
  "Please select a hotel first before I create your itinerary. Would you like to see hotel options?"

def dateErrorResponse : String :=
  "Please ensure your start date and end date are valid and within the next 6 months."

def chatErrorResponse : String :=
  sQ "I" "m having trouble processing your request right now. Could you please try again?"

def planErrorResponse : String :=
  sQ "I" "m sorry, but I encountered an error while planning your trip. Please try again."

def followupErrorResponse : String :=
  sQ "I" "m sorry, but I encountered an error while processing your question. Could you please try again?"

def hotelErrorResponse : String :=
  "I encountered an error while customizing your hotel preferences. Please try again."

def itinerary_keywords : List String :=
  ["create itinerary", "make itinerary", "plan my days", "day by day plan"]

def hotel_keywords : List String :=
  ["customize hotel", "change hotel", "different hotel", "hotel preference",
   "hotel option", "hotel amenities", "hotel location", "hotel price"]

/-- `_generate_itinerary`: run the supervisor; on success persist the
itinerary, on exception answer with the generic apology and change nothing. -/
def generate_itinerary (ext : TurnExt) (s : SessionState) : TurnResult :=
  match ext.supervisor with
  | .ok itin => ⟨.planning, { s with itinerary := some itin }, itin⟩
  | .error _ => ⟨.planning, s, planErrorResponse⟩

/-- `_handle_followup_question`: call the chat model with the stored
itinerary as context; a day-by-day or detailed request overwrites the stored
itinerary with the new response. -/
def handle_followup (ext : TurnExt) (message : String) (s : SessionState) : TurnResult :=
  match ext.followup with
  | .ok text =>
    let ml := pyLower message
    let s2 := if containsStr "day-by-day" ml || containsStr "detailed" ml then
        { s with itinerary := some text }
      else s
    ⟨.followup, s2, text⟩
  | .error _ => ⟨.followup, s, followupErrorResponse⟩

/-- `handle_hotel_customization`. A selected hotel triggers
`update_trip_details` with the current details plus a `selected_hotel` key;
`TripDetails.update` skips that key (`hasattr` is false for it), so the write
is a self-merge. A `needs_new_itinerary` result may update the details again
and regenerate the itinerary. The confirmed flag is never touched. -/
def handle_hotel_customization (ext : TurnExt) (s : SessionState) : TurnResult :=
  match ext.customizer with
  | .error _ => ⟨.hotelCustomization, s, hotelErrorResponse⟩
  | .ok c =>
    if c.success then
      let s1 := if c.selected_hotel.isSome then
          s.update_trip_details s.get_trip_details.to_update
        else s
      if c.needs_new_itinerary then
        let s2 := match c.trip_update with
          | some u => s1.update_trip_details u
          | none => s1
        generate_itinerary ext s2
      else ⟨.hotelCustomization, s1, c.message⟩
    else ⟨.hotelCustomization, s, c.message⟩

/-- One turn of `ChatManager.process_message`, given the session state and
the external outcomes of the turn. Branches, in source order: the
itinerary-keyword branch (which looks up the undefined `get` attribute on the
`TripDetails` dataclass and therefore raises `AttributeError`), the
hotel-keyword branch, extraction and merge, the date-`"Error"` check, the
follow-up route when an itinerary is stored, the confirmation check, and the
default collection path. -/
def process_message (ext : TurnExt) (s : SessionState) (message : String) :
    Except PyError TurnResult :=
  let ml := pyLower message
  if itinerary_keywords.any (fun k => containsStr k ml) then
    if tripDetailsMembers.contains "get" then
      .ok ⟨.itineraryGate, s, selectHotelResponse⟩
    else .error .attributeError
  else if hotel_keywords.any (fun k => containsStr k ml) then
    .ok (handle_hotel_customization ext s)
  else
    let s1 := s.update_trip_details ext.extracted.to_update
    let trip := s1.get_trip_details
    if trip.start_date == some "Error" || trip.end_date == some "Error" then
      .ok ⟨.dateError, s1, dateErrorResponse⟩
    else if s1.has_itinerary then
      .ok (handle_followup ext message s1)
    else if check_confirmation message && trip.is_ready_for_confirmation then
      .ok (generate_itinerary ext { s1 with confirmed := true })
    else
      .ok (match ext.chat with
        | .ok text => ⟨.collecting, s1, text⟩
        | .error _ => ⟨.collecting, s1, chatErrorResponse⟩)

/-! ## `TravelSupervisor` (`src/services/supervisors/travel_supervisor.py`)

The three provider lookups run under `asyncio.gather`, each wrapped in a
`try/except` that turns a raised exception into an inline error marker; the
workflow graph then feeds the settled state to `_create_itinerary`. The
embedding represents each provider as a function from its query to an
`Except` outcome, and the itinerary LLM as a function of the settled state. -/

/-- A bundle slot after its agent ran: provider data, or the marker
`[{"error": str(e)}]`. -/
inductive SlotValue (α : Type) where
  | data : α → SlotValue α
  | errorMarker : String → SlotValue α
deriving DecidableEq

/-- Arguments of `flight_service.get_flights` as read from the trip-details
dictionary. -/
structure FlightQuery where
  origin : Option String
  destination : Option String
  start_date : Option String
  end_date : Option String
  travelers : Option Int
deriving DecidableEq

/-- Arguments of `hotel_service.get_hotels`; `travelers` uses the dictionary
default `1`. -/
structure HotelQuery where
  destination : Option String
  start_date : Option String
  end_date : Option String
  travelers : Int
  budget : Option Int
deriving DecidableEq

/-- Arguments of `activity_service.get_activities`. The source reads the key
`activity_preferences`, which `TripDetails.to_dict` never emits (the field is
named `preferences`), so the preferences argument is always the default
empty string. -/
structure ActivityQuery where
  destination : Option String
  preferences : String
deriving DecidableEq

def flight_query (td : TripDetails) : FlightQuery :=
  ⟨td.origin, td.destination, td.start_date, td.end_date, td.travelers⟩

def hotel_query (td : TripDetails) : HotelQuery :=
  ⟨td.destination, td.start_date, td.end_date, td.travelers.getD 1, td.budget⟩

def activity_query (td : TripDetails) : ActivityQuery := ⟨td.destination, ""⟩

/-- The three provider collaborators of one planning invocation. -/
structure ProviderCalls (F H A : Type) where
  flights : FlightQuery → Except String F
  hotels : HotelQuery → Except String H
  activities : ActivityQuery → Except String A

/-- The langgraph `TravelState`. -/
structure TravelState (F H A : Type) where
  session_id : String
  trip_details : TripDetails
  flights : SlotValue F
  hotels : SlotValue H
  activities : SlotValue A
  itinerary : String
deriving DecidableEq

/-- `_flights_agent`: call the service inside `try`; an exception becomes the
error marker for this slot only. -/
def flights_agent {F H A : Type} (calls : ProviderCalls F H A) (st : TravelState F H A) :
    SlotValue F :=
  match calls.flights (flight_query st.trip_details) with
  | .ok r => .data r
  | .error e => .errorMarker e

def hotels_agent {F H A : Type} (calls : ProviderCalls F H A) (st : TravelState F H A) :
    SlotValue H :=
  match calls.hotels (hotel_query st.trip_details) with
  | .ok r => .data r
  | .error e => .errorMarker e

def activities_agent {F H A : Type} (calls : ProviderCalls F H A) (st : TravelState F H A) :
    SlotValue A :=
  match calls.activities (activity_query st.trip_details) with
  | .ok r => .data r
  | .error e => .errorMarker e

/-- `_run_parallel_agents`: gather the three agent results and write all
three slots into the state. -/
def run_parallel_agents {F H A : Type} (calls : ProviderCalls F H A)
    (st : TravelState F H A) : TravelState F H A :=
  { st with
    flights := flights_agent calls st
    hotels := hotels_agent calls st
    activities := activities_agent calls st }

/-- `plan_trip` through the workflow graph: `start` → `parallel_booking` →
`create_itinerary` → `finish`. `synth` is the itinerary LLM call, applied to
the fully settled state. `e0F`/`e0H`/`e0A` are the empty initial slot
payloads of the initial state. -/
def plan_trip {F H A : Type} (calls : ProviderCalls F H A)
    (synth : TravelState F H A → String) (e0F : F) (e0H : H) (e0A : A)
    (sid : String) (trip : TripDetails) : TravelState F H A :=
  let st0 : TravelState F H A :=
    ⟨sid, trip, .data e0F, .data e0H, .data e0A, ""⟩
  let st1 := run_parallel_agents calls st0
  { st1 with itinerary := synth st1 }

/-! # Helper lemmas -/

theorem listLe_total (a : List Char) : ∀ b, listLe a b = true ∨ listLe b a = true := by
  induction a with
  | nil => intro b; left; rfl
  | cons x xs ih =>
    intro b
    cases b with
    | nil => right; rfl
    | cons y ys =>
      by_cases h1 : x.toNat < y.toNat
      · left; simp [listLe, h1]
      · by_cases h2 : y.toNat < x.toNat
        · right; simp [listLe, h2]
        · rcases ih ys with h | h
          · left; simp [listLe, h1, h2, h]
          · right; simp [listLe, h1, h2, h]

theorem strLe_total (a b : String) : strLe a b = true ∨ strLe b a = true :=
  listLe_total a.data b.data

theorem insertSorted_chain (x : String) :
    ∀ l, chainLe l = true → chainLe (insertSorted x l) = true := by
  intro l
  induction l with
  | nil => intro _; simp [insertSorted, chainLe]
  | cons y ys ih =>
    intro h
    by_cases hxy : strLe x y = true
    · simpa [insertSorted, hxy, chainLe] using h
    · have hyx : strLe y x = true := by
        rcases strLe_total x y with h1 | h1
        · exact absurd h1 hxy
        · exact h1
      cases ys with
      | nil => simp [insertSorted, hxy, chainLe, hyx]
      | cons z zs =>
        have hyz : strLe y z = true := by
          simp [chainLe] at h; exact h.1
        have hzchain : chainLe (z :: zs) = true := by
          simp [chainLe] at h; exact h.2
        have ihz := ih hzchain
        by_cases hxz : strLe x z = true
        · simp [insertSorted, hxy, hxz, chainLe, hyx, hyz, hzchain]
        · simp only [insertSorted, hxy, hxz, if_neg, ite_false] at ihz ⊢
          simp [chainLe] at ihz ⊢
          exact ⟨hyz, ihz⟩

theorem sortStrings_chain : ∀ l, chainLe (sortStrings l) = true := by
  intro l
  induction l with
  | nil => rfl
  | cons x xs ih => exact insertSorted_chain x _ ih

theorem generate_itinerary_confirmed (ext : TurnExt) (s : SessionState) :
    (generate_itinerary ext s).state.confirmed = s.confirmed := by
  unfold generate_itinerary
  cases ext.supervisor <;> rfl

theorem generate_itinerary_route (ext : TurnExt) (s : SessionState) :
    (generate_itinerary ext s).route = .planning := by
  unfold generate_itinerary
  cases ext.supervisor <;> rfl

theorem handle_followup_confirmed (ext : TurnExt) (m : String) (s : SessionState) :
    (handle_followup ext m s).state.confirmed = s.confirmed := by
  unfold handle_followup
  cases ext.followup with
  | error _ => rfl
  | ok t => dsimp only; split <;> rfl

theorem handle_followup_route (ext : TurnExt) (m : String) (s : SessionState) :
    (handle_followup ext m s).route = .followup := by
  unfold handle_followup
  cases ext.followup <;> rfl

theorem update_trip_details_confirmed (s : SessionState) (u : TripUpdate) :
    (s.update_trip_details u).confirmed = s.confirmed := rfl

theorem hotel_customization_confirmed (ext : TurnExt) (s : SessionState) :
    (handle_hotel_customization ext s).state.confirmed = s.confirmed := by
  unfold handle_hotel_customization
  cases ext.customizer with
  | error _ => rfl
  | ok c =>
    dsimp only
    split
    · split
      · rw [generate_itinerary_confirmed]
        split
        · rw [update_trip_details_confirmed]
          split <;> rfl
        · split <;> rfl
      · split <;> rfl
    · rfl

theorem hotel_customization_route (ext : TurnExt) (s : SessionState) :
    (handle_hotel_customization ext s).route = .hotelCustomization ∨
    (handle_hotel_customization ext s).route = .planning := by
  unfold handle_hotel_customization
  cases ext.customizer with
  | error _ => left; rfl
  | ok c =>
    dsimp only
    split
    · split
      · right; rw [generate_itinerary_route]
      · left; rfl
    · left; rfl

/-! # Claims -/

/-- A fixed current day for concrete evaluations: 2025-10-12. -/
def today_model : Int := daysFromCivil 2025 10 12

/-- C5: the spec demands that an out-of-range date be set to an explicit
`Error` sentinel, distinct from the absent value, so the controller can emit
its corrective date message (`process_message` tests for the literal string
`"Error"`). The code disagrees with the spec it documents:
`validate_future_date` returns `None` both for a past date and for a date
beyond the 180-day horizon, which is exactly the absent-field default of
`TripDetails`, and is not the `"Error"` sentinel the controller looks for —
while an in-range date is indeed returned unchanged in ISO form. -/
theorem claim5_sentinel_bug :
    validate_future_date today_model "2020-01-01" = none ∧
    validate_future_date today_model "2027-01-01" = none ∧
    validate_future_date today_model "2020-01-01" = ({} : TripDetails).start_date ∧
    validate_future_date today_model "2020-01-01" ≠ some "Error" ∧
    validate_future_date today_model "2025-11-20" = some "2025-11-20" := by
  refine ⟨by decide, by decide, by decide, by decide, by decide⟩

/-- C6: merging an extraction result into a stored profile never replaces a
non-null field with null: `TripDetails.update` only overwrites a field when
the new dictionary carries a non-`None` value for it, so knowledge
accumulates monotonically and the only possible change to a non-null field
is replacement by another non-null value. -/
theorem claim6_monotone_merge (t : TripDetails) (u : TripUpdate) :
    (t.origin ≠ none → (t.update u).origin ≠ none) ∧
    (t.destination ≠ none → (t.update u).destination ≠ none) ∧
    (t.start_date ≠ none → (t.update u).start_date ≠ none) ∧
    (t.end_date ≠ none → (t.update u).end_date ≠ none) ∧
    (t.travelers ≠ none → (t.update u).travelers ≠ none) ∧
    (t.budget ≠ none → (t.update u).budget ≠ none) ∧
    (t.preferences ≠ none → (t.update u).preferences ≠ none) ∧
    (u.origin = none → (t.update u).origin = t.origin) ∧
    (u.destination = none → (t.update u).destination = t.destination) ∧
    (u.start_date = none → (t.update u).start_date = t.start_date) ∧
    (u.end_date = none → (t.update u).end_date = t.end_date) ∧
    (u.travelers = none → (t.update u).travelers = t.travelers) ∧
    (u.budget = none → (t.update u).budget = t.budget) ∧
    (u.preferences = none → (t.update u).preferences = t.preferences) := by
  refine ⟨?_, ?_, ?_, ?_, ?_, ?_, ?_, ?_, ?_, ?_, ?_, ?_, ?_, ?_⟩ <;> intro h
  · cases hu : u.origin <;> simp [TripDetails.update, hu, h]
  · cases hu : u.destination <;> simp [TripDetails.update, hu, h]
  · cases hu : u.start_date <;> simp [TripDetails.update, hu, h]
  · cases hu : u.end_date <;> simp [TripDetails.update, hu, h]
  · cases hu : u.travelers <;> simp [TripDetails.update, hu, h]
  · cases hu : u.budget <;> simp [TripDetails.update, hu, h]
  · cases hu : u.preferences <;> simp [TripDetails.update, hu, h]
  · simp [TripDetails.update, h]
  · simp [TripDetails.update, h]
  · simp [TripDetails.update, h]
  · simp [TripDetails.update, h]
  · simp [TripDetails.update, h]
  · simp [TripDetails.update, h]
  · simp [TripDetails.update, h]

/-- A fully populated stored profile used to witness C6. -/
def trip_w6 : TripDetails :=
  { origin := some "Boston", destination := some "Paris",
    start_date := some "2025-11-01", end_date := some "2025-11-05",
    travelers := some 2, budget := some 3000, preferences := some "museums" }

/-- Witness for C6: an all-null extraction merged into a fully populated
profile keeps every field non-null and unchanged. -/
theorem claim6_monotone_merge_witness :
    ((trip_w6.update {}).origin ≠ none) ∧
    ((trip_w6.update {}).travelers ≠ none) ∧
    ((trip_w6.update {}).origin = trip_w6.origin) :=
  ⟨(claim6_monotone_merge trip_w6 {}).1 (by decide),
   (claim6_monotone_merge trip_w6 {}).2.2.2.2.1 (by decide),
   (claim6_monotone_merge trip_w6 {}).2.2.2.2.2.2.2.1 rfl⟩

/-- C9: the `TripDetails` dataclass defines no `get` attribute, so for every
message containing an itinerary keyword `process_message` evaluates
`trip_details.get("selected_hotel")` and raises `AttributeError`; the
hotel-gated itinerary branch can never be reached as a successful path. -/
theorem claim9_itinerary_keyword_crash (ext : TurnExt) (s : SessionState) (msg : String)
    (h : itinerary_keywords.any (fun k => containsStr k (pyLower msg)) = true) :
    process_message ext s msg = .error .attributeError ∧
    tripDetailsMembers.contains "get" = false := by
  have hg : tripDetailsMembers.contains "get" = false := by decide
  refine ⟨?_, hg⟩
  simp only [process_message]
  rw [h]
  simp [hg]
  decide

/-- Witness for C9: the message `"Please create itinerary now"` contains the
keyword `create itinerary` and the turn raises `AttributeError`. -/
theorem claim9_itinerary_keyword_crash_witness :
    process_message ⟨{}, .ok "a", .ok "b", .ok "c", .error "d"⟩ {}
      "Please create itinerary now" = .error .attributeError :=
  (claim9_itinerary_keyword_crash _ _ _ (by decide)).1

/-- C10: every cleaned extraction result carries a `confidence_levels`
dictionary — empty when no vague date reference was detected — and because
`to_dict` never omits it (an empty dictionary is not `None`),
`TripDetails.update` overwrites the stored `confidence_levels` wholesale on
every merge; so a later turn erases earlier inferred-date tags even when the
date fields themselves are preserved. -/
theorem claim10_confidence_overwrite (now : Int) (data : RawExtract) (t e : TripDetails) :
    (clean_extracted_data now data none).confidence_levels = [] ∧
    (t.update e.to_update).confidence_levels = e.confidence_levels ∧
    (e.start_date = none → (t.update e.to_update).start_date = t.start_date) ∧
    (e.end_date = none → (t.update e.to_update).end_date = t.end_date) := by
  refine ⟨rfl, rfl, ?_, ?_⟩
  · intro h; simp [TripDetails.update, TripDetails.to_update, h]
  · intro h; simp [TripDetails.update, TripDetails.to_update, h]

/-- A stored profile with inferred-date tags, used to witness C10. -/
def trip_w10 : TripDetails :=
  { start_date := some "2025-11-01", end_date := some "2025-11-05",
    confidence_levels := [("start_date", "inferred"), ("end_date", "inferred")] }

/-- An extraction result for a date-free later message, used to witness C10. -/
def extract_w10 : TripDetails :=
  clean_extracted_data today_model { destination := some "rome" } none

/-- Witness for C10: merging a date-free later extraction erases the stored
inferred tags while the dates themselves survive. -/
theorem claim10_confidence_overwrite_witness :
    (trip_w10.update extract_w10.to_update).confidence_levels = [] ∧
    (trip_w10.update extract_w10.to_update).start_date = some "2025-11-01" := by
  have h := claim10_confidence_overwrite today_model { destination := some "rome" }
    trip_w10 extract_w10
  exact ⟨h.2.1.trans h.1, (h.2.2.1 (by decide)).trans rfl⟩

/-- Words produced by `pySplitAux` contain no whitespace characters. -/
theorem pySplitAux_no_space :
    ∀ s acc, (∀ c ∈ acc, isPySpace c = false) →
      ∀ w ∈ pySplitAux s acc, ∀ c ∈ w.data, isPySpace c = false := by
  intro s
  induction s with
  | nil =>
    intro acc hacc w hw
    simp only [pySplitAux] at hw
    split at hw
    · simp at hw
    · simp at hw
      subst hw
      intro c hc
      simp only [String.mk] at hc
      exact hacc c (List.mem_reverse.mp hc)
  | cons x xs ih =>
    intro acc hacc w hw
    simp only [pySplitAux] at hw
    by_cases hx : isPySpace x = true
    · rw [if_pos hx] at hw
      split at hw
      · exact ih [] (by simp) w hw
      · rcases List.mem_cons.mp hw with h | h
        · subst h
          intro c hc
          simp only [String.mk] at hc
          exact hacc c (List.mem_reverse.mp hc)
        · exact ih [] (by simp) w h
    · rw [if_neg hx] at hw
      refine ih (x :: acc) ?_ w hw
      intro c hc
      rcases List.mem_cons.mp hc with h | h
      · subst h; simpa using hx
      · exact hacc c h

/-- No word of `pySplit x` can be a keyword that contains a space. -/
theorem pySplit_contains_spaced_eq_false (x k : String)
    (hk : ∃ c ∈ k.data, isPySpace c = true) :
    (pySplit x).contains k = false := by
  by_contra hmem
  simp only [Bool.not_eq_false] at hmem
  have hmem2 : k ∈ pySplitAux x.data [] := List.mem_of_elem_eq_true hmem
  obtain ⟨c, hc, hspace⟩ := hk
  have := pySplitAux_no_space x.data [] (by simp) k hmem2 c hc
  rw [this] at hspace
  exact Bool.false_ne_true hspace

/-- C3, counterexample: the spec (and the claim) place `sounds good` in the
recognized affirmative token set, and the message `"sounds good"` contains no
negation token at all — so under the claimed rule it must classify as a
confirmation. The code classifies it as NOT confirming: the word-level check
compares keywords against `message.split()`, and a keyword containing a space
can never equal a split word, while the exact-phrase special case does not
list `sounds good`. -/
theorem claim3_token_rule_counterexample :
    check_confirmation "sounds good" = false ∧
    confirmation_keywords.contains "sounds good" = true ∧
    negation_words.all (fun w => !containsStr w "sounds good") = true := by
  refine ⟨by decide, by decide, by decide⟩

/-- The affirmative tokens that consist of a single word; stated by the
amended claim as the set that is actually recognized inside longer
messages. -/
def single_word_confirmations : List String :=
  ["yes", "yeah", "yep", "sure", "ok", "okay", "proceed", "confirm", "book", "please"]

/-- C3, amended: `_check_confirmation` returns true exactly when the
lower-cased stripped message is one of the eight special exact phrases, or
else no listed pre-negation (dont, do not, cannot, cant, not, written with
their apostrophes) immediately precedes an affirmative keyword, some
SINGLE-WORD affirmative
token occurs as a whitespace-delimited word, and no negation word occurs as
a whitespace-delimited word. The multi-word tokens `go ahead` and
`sounds good` are provably never matched by the word-level check, so outside
the exact phrases they are not recognized. -/
theorem claim3_token_rule_amended (m : String) :
    check_confirmation m =
      (special_confirmations.contains (pyStrip (pyLower m)) ||
       (!(pre_negations.any (fun neg => confirmation_keywords.any
             (fun conf => containsStr (neg ++ " " ++ conf) (pyStrip (pyLower m))))) &&
        single_word_confirmations.any (fun k => (pySplit (pyStrip (pyLower m))).contains k) &&
        !(negation_words.any (fun w => (pySplit (pyStrip (pyLower m))).contains w)))) := by
  have hga : (pySplit (pyStrip (pyLower m))).contains "go ahead" = false :=
    pySplit_contains_spaced_eq_false _ _ ⟨' ', by decide, by decide⟩
  have hsg : (pySplit (pyStrip (pyLower m))).contains "sounds good" = false :=
    pySplit_contains_spaced_eq_false _ _ ⟨' ', by decide, by decide⟩
  have key : (confirmation_keywords.any fun k => (pySplit (pyStrip (pyLower m))).contains k)
      = (single_word_confirmations.any fun k => (pySplit (pyStrip (pyLower m))).contains k) := by
    simp only [confirmation_keywords, single_word_confirmations, List.any_cons, List.any_nil,
      hga, hsg, Bool.or_false, Bool.false_or]
  have unfolded : check_confirmation m =
      (if special_confirmations.contains (pyStrip (pyLower m)) = true then true
       else if (pre_negations.any fun neg => confirmation_keywords.any
           (fun conf => containsStr (neg ++ " " ++ conf) (pyStrip (pyLower m)))) = true then false
       else (confirmation_keywords.any fun k => (pySplit (pyStrip (pyLower m))).contains k) &&
            !(negation_words.any fun w => (pySplit (pyStrip (pyLower m))).contains w)) := rfl
  rw [unfolded, key]
  cases hsp : special_confirmations.contains (pyStrip (pyLower m)) with
  | true => simp
  | false =>
    cases hpn : (pre_negations.any fun neg => confirmation_keywords.any
        (fun conf => containsStr (neg ++ " " ++ conf) (pyStrip (pyLower m)))) with
    | true => simp
    | false => simp

/-- The state after `_run_parallel_agents` settled all three provider slots
(the workflow state passed to `_create_itinerary`). -/
def settled_bundle {F H A : Type} (calls : ProviderCalls F H A) (e0F : F) (e0H : H)
    (e0A : A) (sid : String) (trip : TripDetails) : TravelState F H A :=
  run_parallel_agents calls ⟨sid, trip, .data e0F, .data e0H, .data e0A, ""⟩

/-- C2: for every combination of per-provider outcomes, an exception in one
lookup becomes the inline error marker in that provider slot only, a
successful lookup keeps its data, all three slots are settled in the bundle
that reaches synthesis, and synthesis is invoked on that bundle (also when
some provider failed) with no slot dropped from the final state. -/
theorem claim2_provider_isolation {F H A : Type} (calls : ProviderCalls F H A)
    (synth : TravelState F H A → String) (e0F : F) (e0H : H) (e0A : A)
    (sid : String) (trip : TripDetails) :
    (∀ e, calls.flights (flight_query trip) = .error e →
       (settled_bundle calls e0F e0H e0A sid trip).flights = .errorMarker e) ∧
    (∀ r, calls.flights (flight_query trip) = .ok r →
       (settled_bundle calls e0F e0H e0A sid trip).flights = .data r) ∧
    (∀ e, calls.hotels (hotel_query trip) = .error e →
       (settled_bundle calls e0F e0H e0A sid trip).hotels = .errorMarker e) ∧
    (∀ r, calls.hotels (hotel_query trip) = .ok r →
       (settled_bundle calls e0F e0H e0A sid trip).hotels = .data r) ∧
    (∀ e, calls.activities (activity_query trip) = .error e →
       (settled_bundle calls e0F e0H e0A sid trip).activities = .errorMarker e) ∧
    (∀ r, calls.activities (activity_query trip) = .ok r →
       (settled_bundle calls e0F e0H e0A sid trip).activities = .data r) ∧
    (plan_trip calls synth e0F e0H e0A sid trip).itinerary =
      synth (settled_bundle calls e0F e0H e0A sid trip) ∧
    (plan_trip calls synth e0F e0H e0A sid trip).flights =
      (settled_bundle calls e0F e0H e0A sid trip).flights ∧
    (plan_trip calls synth e0F e0H e0A sid trip).hotels =
      (settled_bundle calls e0F e0H e0A sid trip).hotels ∧
    (plan_trip calls synth e0F e0H e0A sid trip).activities =
      (settled_bundle calls e0F e0H e0A sid trip).activities := by
  refine ⟨?_, ?_, ?_, ?_, ?_, ?_, rfl, rfl, rfl, rfl⟩
  · intro e he
    simp [settled_bundle, run_parallel_agents, flights_agent, he]
  · intro r hr
    simp [settled_bundle, run_parallel_agents, flights_agent, hr]
  · intro e he
    simp [settled_bundle, run_parallel_agents, hotels_agent, he]
  · intro r hr
    simp [settled_bundle, run_parallel_agents, hotels_agent, hr]
  · intro e he
    simp [settled_bundle, run_parallel_agents, activities_agent, he]
  · intro r hr
    simp [settled_bundle, run_parallel_agents, activities_agent, hr]

/-- A provider assignment where the hotels lookup raises and the other two
succeed, used to witness C2. -/
def calls_w2 : ProviderCalls String String String :=
  ⟨fun _ => .ok "FLIGHTS", fun _ => .error "boom", fun _ => .ok "ACTIVITIES"⟩

/-- Witness for C2: with the hotels provider failing, its slot carries the
error marker, the other two carry their data, and synthesis still runs. -/
theorem claim2_provider_isolation_witness :
    (settled_bundle calls_w2 "" "" "" "sid" {}).flights = .data "FLIGHTS" ∧
    (settled_bundle calls_w2 "" "" "" "sid" {}).hotels = .errorMarker "boom" ∧
    (settled_bundle calls_w2 "" "" "" "sid" {}).activities = .data "ACTIVITIES" ∧
    (plan_trip calls_w2 (fun _ => "ITIN") "" "" "" "sid" {}).itinerary = "ITIN" := by
  have h := claim2_provider_isolation calls_w2 (fun _ => "ITIN") "" "" "" "sid" {}
  exact ⟨h.2.1 "FLIGHTS" rfl, h.2.2.1 "boom" rfl, h.2.2.2.2.2.1 "ACTIVITIES" rfl,
         h.2.2.2.2.2.2.1⟩

theorem update_get (s : SessionState) (u : TripUpdate) :
    (s.update_trip_details u).get_trip_details = s.get_trip_details.update u := rfl

theorem update_has_itinerary (s : SessionState) (u : TripUpdate) :
    (s.update_trip_details u).has_itinerary = s.has_itinerary := rfl

/-- C4, counterexample: for the message `"from 2025-06-10 to 2025-06-05"` —
an end date stated strictly before the start date — the regex extractor
silently reorders the pair: it sorts the found dates and returns
start 2025-06-05, end 2025-06-10, rather than keeping the stated order or
reporting an error; neither produced field carries the `"Error"` sentinel the
controller would report on. This refutes the claim that such a pair is never
silently reordered or swapped and is reported to the user. -/
theorem claim4_date_order_counterexample :
    extract_dates (fun _ => none) 0 "from 2025-06-10 to 2025-06-05" =
      .ok ⟨some "2025-06-05", some "2025-06-10"⟩ ∧
    extract_dates (fun _ => none) 0 "from 2025-06-10 to 2025-06-05" ≠
      .ok ⟨some "2025-06-10", some "2025-06-05"⟩ ∧
    (some "2025-06-05" : Option String) ≠ some "Error" ∧
    (some "2025-06-10" : Option String) ≠ some "Error" := by
  refine ⟨by decide, by decide, by decide, by decide⟩

/-- C4, amended: whenever the regex extractor assigns both `start_date` and
`end_date` from the dates found in one message, the pair is emitted in sorted
order (`start_date ≤ end_date` lexicographically, hence chronologically for
ISO dates) — an end-before-start mention is silently reordered instead of
being reported — and the controller reports a date error only when a merged
date field literally equals the string `"Error"`. -/
theorem claim4_date_order_amended :
    (∀ parsed s e, assignDates parsed = (some s, some e) → strLe s e = true) ∧
    (∀ (ext : TurnExt) (sess : SessionState) (msg : String) (r : TurnResult),
       process_message ext sess msg = .ok r → r.route = .dateError →
       (sess.get_trip_details.update ext.extracted.to_update).start_date = some "Error" ∨
       (sess.get_trip_details.update ext.extracted.to_update).end_date = some "Error") := by
  constructor
  · intro parsed s e h
    have hchain := sortStrings_chain parsed
    cases hs : sortStrings parsed with
    | nil =>
      have : assignDates parsed = (none, none) := by unfold assignDates; rw [hs]
      rw [this] at h
      simp at h
    | cons a l =>
      cases l with
      | nil =>
        have : assignDates parsed = (some a, none) := by unfold assignDates; rw [hs]
        rw [this] at h
        simp at h
      | cons b rest =>
        have : assignDates parsed = (some a, some b) := by unfold assignDates; rw [hs]
        rw [this] at h
        simp only [Prod.mk.injEq, Option.some.injEq] at h
        obtain ⟨h1, h2⟩ := h
        subst h1; subst h2
        rw [hs] at hchain
        simp only [chainLe, Bool.and_eq_true] at hchain
        exact hchain.1
  · intro ext sess msg r h hroute
    simp only [process_message] at h
    by_cases hik : (itinerary_keywords.any fun k => containsStr k (pyLower msg)) = true
    · rw [if_pos hik] at h
      have hg : tripDetailsMembers.contains "get" = false := by decide
      rw [hg] at h
      simp at h
    · rw [if_neg hik] at h
      by_cases hh : (hotel_keywords.any fun k => containsStr k (pyLower msg)) = true
      · rw [if_pos hh] at h
        simp only [Except.ok.injEq] at h
        subst h
        rcases hotel_customization_route ext sess with h1 | h1 <;>
          rw [h1] at hroute <;> exact Route.noConfusion hroute
      · rw [if_neg hh] at h
        simp only [update_get] at h
        by_cases herr :
            ((sess.get_trip_details.update ext.extracted.to_update).start_date == some "Error" ||
             (sess.get_trip_details.update ext.extracted.to_update).end_date == some "Error") = true
        · simp only [Bool.or_eq_true, beq_iff_eq] at herr
          exact herr
        · rw [if_neg herr] at h
          by_cases hit : (sess.update_trip_details ext.extracted.to_update).has_itinerary = true
          · rw [if_pos hit] at h
            simp only [Except.ok.injEq] at h
            subst h
            rw [handle_followup_route] at hroute
            exact Route.noConfusion hroute
          · rw [if_neg hit] at h
            by_cases hc : (check_confirmation msg &&
                (sess.get_trip_details.update ext.extracted.to_update).is_ready_for_confirmation) = true
            · rw [if_pos hc] at h
              simp only [Except.ok.injEq] at h
              subst h
              rw [generate_itinerary_route] at hroute
              exact Route.noConfusion hroute
            · rw [if_neg hc] at h
              simp only [Except.ok.injEq] at h
              subst h
              revert hroute
              cases ext.chat <;> (intro hroute; exact Route.noConfusion hroute)

/-- An extraction outcome whose start date is the literal `"Error"` string,
used to witness the date-error branch of C4 (amended). -/
def ext_w4 : TurnExt :=
  ⟨{ start_date := some "Error" }, .ok "a", .ok "b", .ok "c", .error "d"⟩

/-- Witness for C4 (amended): the reordered pair from the counterexample
message is in sorted order, and a turn that routed to the date-error report
did have the literal `"Error"` string in a merged date field. -/
theorem claim4_date_order_amended_witness :
    strLe "2025-06-05" "2025-06-10" = true ∧
    ((({} : SessionState).get_trip_details.update ext_w4.extracted.to_update).start_date
        = some "Error" ∨
     (({} : SessionState).get_trip_details.update ext_w4.extracted.to_update).end_date
        = some "Error") := by
  constructor
  · exact claim4_date_order_amended.1 ["2025-06-10", "2025-06-05"] _ _ (by decide)
  · exact claim4_date_order_amended.2 ext_w4 {} "hello"
      ⟨.dateError, ({} : SessionState).update_trip_details ext_w4.extracted.to_update,
        dateErrorResponse⟩ (by decide) rfl

/-- A session that already stores an itinerary, used for C7. -/
def sess_c7 : SessionState := { itinerary := some "ITIN" }

/-- A turn whose extraction found a destination, used for C7. -/
def ext_c7 : TurnExt :=
  { extracted := { destination := some "Paris" }, supervisor := .ok "x",
    chat := .ok "x", followup := .ok "FOLLOWUP", customizer := .error "unused" }

/-- C7, counterexample: with an itinerary already stored, the message
`"we leave from boston"` is answered by the follow-up path, but the turn
STILL runs entity extraction and merges the result into the stored profile
first — the stored trip details change from absent to a profile holding the
newly extracted destination. This refutes the claim that post-itinerary
messages never pass through extraction or profile merge. -/
theorem claim7_postitinerary_counterexample :
    process_message ext_c7 sess_c7 "we leave from boston" =
      .ok ⟨.followup,
           ⟨some { destination := some "Paris" }, false, some "ITIN"⟩,
           "FOLLOWUP"⟩ ∧
    (⟨some { destination := some "Paris" }, false, some "ITIN"⟩ : SessionState).trip_details ≠
      sess_c7.trip_details := by
  refine ⟨by decide, by decide⟩

/-- C7, amended: while an itinerary is stored, a message that contains no
itinerary or hotel keyword and does not merge to an `"Error"` date is routed
to the follow-up handler applied to the MERGED session — extraction and
profile merge still run each turn — and the confirmation classifier plays no
role (the result is `handle_followup` of the merged state regardless of what
`check_confirmation` would say); the confirmed flag is unchanged. -/
theorem claim7_postitinerary_amended (ext : TurnExt) (sess : SessionState) (msg : String)
    (hit : sess.has_itinerary = true)
    (h1 : (itinerary_keywords.any fun k => containsStr k (pyLower msg)) = false)
    (h2 : (hotel_keywords.any fun k => containsStr k (pyLower msg)) = false)
    (hs : (sess.get_trip_details.update ext.extracted.to_update).start_date ≠ some "Error")
    (he : (sess.get_trip_details.update ext.extracted.to_update).end_date ≠ some "Error") :
    process_message ext sess msg =
      .ok (handle_followup ext msg (sess.update_trip_details ext.extracted.to_update)) ∧
    (handle_followup ext msg (sess.update_trip_details ext.extracted.to_update)).state.confirmed
      = sess.confirmed ∧
    (handle_followup ext msg (sess.update_trip_details ext.extracted.to_update)).route
      = .followup := by
  refine ⟨?_, (handle_followup_confirmed ext msg _).trans rfl, handle_followup_route ext msg _⟩
  simp only [process_message]
  rw [if_neg (by rw [h1]; exact Bool.false_ne_true)]
  rw [if_neg (by rw [h2]; exact Bool.false_ne_true)]
  simp only [update_get]
  have herr :
      ¬(((sess.get_trip_details.update ext.extracted.to_update).start_date == some "Error" ||
         (sess.get_trip_details.update ext.extracted.to_update).end_date == some "Error") = true) := by
    simp only [Bool.or_eq_true, beq_iff_eq]
    rintro (hx | hx)
    · exact hs hx
    · exact he hx
  rw [if_neg herr]
  rw [if_pos (by rw [update_has_itinerary]; exact hit)]

/-- Witness for C7 (amended): the counterexample scenario discharges every
hypothesis, so the turn equals the follow-up handler on the merged state. -/
theorem claim7_postitinerary_amended_witness :
    process_message ext_c7 sess_c7 "we leave from boston" =
      .ok (handle_followup ext_c7 "we leave from boston"
            (sess_c7.update_trip_details ext_c7.extracted.to_update)) :=
  (claim7_postitinerary_amended ext_c7 sess_c7 "we leave from boston"
    (by decide) (by decide) (by decide) (by decide) (by decide)).1

/-- C8, counterexample: for the scenario message of the claim with an
explicit count (`for 7 days`, start 2025-06-01), the regex extractor sets
`end_date = start + 7 days = 2025-06-08`, not `start + (7 - 1) = 2025-06-07`
as the claim states; and the claim scenario phrase `for a week` does not
match the numeric duration pattern at all (shown in the amended theorem). -/
theorem claim8_duration_counterexample :
    extract_dates (fun _ => none) 0 "I want to visit Paris for 7 days starting 2025-06-01" =
      .ok ⟨some "2025-06-01", some "2025-06-08"⟩ ∧
    (some "2025-06-08" : Option String) ≠ some "2025-06-07" := by
  refine ⟨by decide, by decide⟩

/-- C8, amended: when the message yields a resolved start date, no end date,
and a `for N days/nights` phrase, the regex extractor sets
`end_date = start_date + N days` (not `N - 1`); and the phrase
`for a week` is not matched by the duration pattern, which requires an
explicit number. -/
theorem claim8_duration_amended :
    (∀ (now : Int) (msg : List Char) (sd : String) (y m d : Int) (n : Nat),
       strptimeIso sd = some (y, m, d) →
       duration_search msg = some n →
       duration_step now msg (some sd) none =
         .ok ⟨some sd, some (formatDays (daysFromCivil y m d + Int.ofNat n))⟩) ∧
    duration_search (pyLower "I want to visit Paris for a week starting 2025-06-01").data
      = none := by
  constructor
  · intro now msg sd y m d n hparse hdur
    simp only [duration_step, Option.isNone_none, if_true, hdur, hparse]
  · decide

/-- Witness for C8 (amended): with start 2025-06-01 and the phrase
`for 7 days`, the end date becomes start plus seven days, 2025-06-08. -/
theorem claim8_duration_amended_witness :
    duration_step 0 (pyLower "for 7 days").data (some "2025-06-01") none =
      .ok ⟨some "2025-06-01", some (formatDays (daysFromCivil 2025 6 1 + Int.ofNat 7))⟩ ∧
    formatDays (daysFromCivil 2025 6 1 + Int.ofNat 7) = "2025-06-08" :=
  ⟨claim8_duration_amended.1 0 (pyLower "for 7 days").data "2025-06-01" 2025 6 1 7
     (by decide) (by decide), by decide⟩

/-- C1: across every branch of a `process_message` turn, the stored
confirmed flag can become true only if it already was true or the profile
merged this turn has zero missing required fields at that instant; and when
the message classifies as a confirmation while a required field is still
missing (and no keyword branch, date error, or stored itinerary intervenes),
the flag is not set, the stored profile is exactly the ordinary merge of the
extraction result, and the turn stays on the collecting path. -/
theorem claim1_confirm_gate (ext : TurnExt) (sess : SessionState) (msg : String)
    (r : TurnResult) (h : process_message ext sess msg = .ok r) :
    (r.state.confirmed = true → sess.confirmed = true ∨
       (sess.get_trip_details.update ext.extracted.to_update).is_ready_for_confirmation = true) ∧
    (check_confirmation msg = true →
     (sess.get_trip_details.update ext.extracted.to_update).is_ready_for_confirmation = false →
     (itinerary_keywords.any fun k => containsStr k (pyLower msg)) = false →
     (hotel_keywords.any fun k => containsStr k (pyLower msg)) = false →
     (sess.get_trip_details.update ext.extracted.to_update).start_date ≠ some "Error" →
     (sess.get_trip_details.update ext.extracted.to_update).end_date ≠ some "Error" →
     sess.has_itinerary = false →
     r = ⟨.collecting, sess.update_trip_details ext.extracted.to_update,
          match ext.chat with | .ok t => t | .error _ => chatErrorResponse⟩) := by
  simp only [process_message] at h
  by_cases hik : (itinerary_keywords.any fun k => containsStr k (pyLower msg)) = true
  · rw [if_pos hik] at h
    have hg : tripDetailsMembers.contains "get" = false := by decide
    rw [hg] at h
    simp at h
  · rw [if_neg hik] at h
    by_cases hh : (hotel_keywords.any fun k => containsStr k (pyLower msg)) = true
    · rw [if_pos hh] at h
      simp only [Except.ok.injEq] at h
      subst h
      constructor
      · intro hc
        left
        rw [← hotel_customization_confirmed ext sess]
        exact hc
      · intro _ _ _ hhot
        rw [hh] at hhot
        exact absurd hhot (by decide)
    · rw [if_neg hh] at h
      simp only [update_get] at h
      by_cases herr :
          ((sess.get_trip_details.update ext.extracted.to_update).start_date == some "Error" ||
           (sess.get_trip_details.update ext.extracted.to_update).end_date == some "Error") = true
      · rw [if_pos herr] at h
        simp only [Except.ok.injEq] at h
        subst h
        constructor
        · intro hc
          left
          exact hc
        · intro _ _ _ _ hs he _
          simp only [Bool.or_eq_true, beq_iff_eq] at herr
          rcases herr with hx | hx
          · exact absurd hx hs
          · exact absurd hx he
      · rw [if_neg herr] at h
        by_cases hit : (sess.update_trip_details ext.extracted.to_update).has_itinerary = true
        · rw [if_pos hit] at h
          simp only [Except.ok.injEq] at h
          subst h
          constructor
          · intro hc
            left
            have heq : (handle_followup ext msg
                (sess.update_trip_details ext.extracted.to_update)).state.confirmed
                = sess.confirmed :=
              (handle_followup_confirmed ext msg _).trans rfl
            rw [← heq]
            exact hc
          · intro _ _ _ _ _ _ hnoit
            rw [update_has_itinerary] at hit
            rw [hnoit] at hit
            exact absurd hit (by decide)
        · rw [if_neg hit] at h
          by_cases hcf : (check_confirmation msg &&
              (sess.get_trip_details.update ext.extracted.to_update).is_ready_for_confirmation) = true
          · rw [if_pos hcf] at h
            simp only [Except.ok.injEq] at h
            subst h
            simp only [Bool.and_eq_true] at hcf
            constructor
            · intro _
              right
              exact hcf.2
            · intro _ hnotready
              rw [hcf.2] at hnotready
              exact absurd hnotready (by decide)
          · rw [if_neg hcf] at h
            simp only [Except.ok.injEq] at h
            subst h
            constructor
            · intro hc
              left
              revert hc
              cases hchat : ext.chat <;> (intro hc; exact hc)
            · intro _ _ _ _ _ _ _
              cases ext.chat <;> rfl

/-- An extraction outcome with only a destination, used to witness C1. -/
def ext_w1 : TurnExt :=
  { extracted := { destination := some "Paris" }, supervisor := .ok "plan",
    chat := .ok "collect", followup := .ok "follow",
    customizer := .ok { success := true, message := "m" } }

/-- Witness for C1: the user says `"yes"` on a fresh session whose merge
still misses origin, dates and travelers; the flag stays false, the profile
is exactly the merge, and the turn keeps collecting. -/
theorem claim1_confirm_gate_witness :
    (⟨.collecting, SessionState.update_trip_details {} ext_w1.extracted.to_update,
       "collect"⟩ : TurnResult) =
      ⟨.collecting, SessionState.update_trip_details {} ext_w1.extracted.to_update,
       match ext_w1.chat with | .ok t => t | .error _ => chatErrorResponse⟩ :=
  ((claim1_confirm_gate ext_w1 {} "yes"
      ⟨.collecting, SessionState.update_trip_details {} ext_w1.extracted.to_update, "collect"⟩
      (by decide)).2
    (by decide) (by decide) (by decide) (by decide) (by decide) (by decide) rfl).symm.trans
    rfl |>.symm

end TravelPlanner
